import Mathlib

/-
  Verification development for the substreams sink client library
  (package `sink`): a shallow embedding of `sinker.go` (the streaming
  session manager), `authenticator.go` and the spec-described
  collaborators that are not part of the provided sources (cursor
  parsing, the undo buffer, the option constructors).

  Modelling conventions:
  * Go `uint64` values are `Nat`; where Go arithmetic can wrap we reduce
    modulo 2^64 explicitly (`uadd`, `usub`).
  * Opaque Go strings (cursors, module names, trace ids, error text) are
    modelled as `Nat` tokens; their only role is identity.
  * Go errors are the inductive `GoError`; `fmt.Errorf` with `%w` is
    `GoError.wrapErr`, `derr.NewRetryableError` is `GoError.retryableErr`,
    and `errors.Is(err, io.EOF)` / `errors.As(err, &retryableError)`
    traverse the wrap chain exactly as Go's `Unwrap` does.
  * The server-streaming RPC is modelled by its observable effect on the
    client: a session is driven by the list of `stream.Recv()` outcomes
    (`RecvEvent`), and a run by the list of such sessions.  Context
    cancellation is modelled by the boolean value that `ctx.Err() ==
    context.Canceled` has at the points where the code reads it.
  * Logging and the `Stats` collaborator are effect-free and are omitted;
    Prometheus metrics that the dispatched code writes are modelled in
    the `Metrics` record (byte-size and wall-clock-based gauges, whose
    inputs are outside the data model, are omitted).
-/

namespace Sink

/-! ## Wrap-around 64-bit arithmetic -/

def U64 : Nat := 2 ^ 64

/-- Go `uint64` addition (wraps modulo 2^64). -/
def uadd (a b : Nat) : Nat := (a + b) % U64

/-- Go `uint64` subtraction (wraps modulo 2^64). -/
def usub (a b : Nat) : Nat := (a + (U64 - b % U64)) % U64

/-- Go `int64(u)` conversion of a `uint64` value. -/
def toInt64 (n : Nat) : Int :=
  if n < 2 ^ 63 then (n : Int) else (n : Int) - (U64 : Int)

/-! ## gRPC codes and receive-side errors -/

inductive GrpcCode
  | unauthenticated
  | invalidArgument
  | canceled
  | unavailable
  | internal
  | unknownCode
deriving DecidableEq

/-- An error produced by `stream.Recv()` (or by the `Blocks` call): either
`io.EOF`, an error carrying a gRPC status, or any other error (opaque tag). -/
inductive RecvError
  | eof
  | grpcErr (code : GrpcCode)
  | otherErr (tag : Nat)
deriving DecidableEq

/-- `dgrpc.AsGRPCError`: yields the status code iff the error carries one. -/
def asGRPCError : RecvError → Option GrpcCode
  | .grpcErr c => some c
  | _ => none

/-- Tags for the `fmt.Errorf("...: %w", err)` wrapping sites in `sinker.go`. -/
inductive WrapTag
  | callBlocks
  | streamFailure
  | streamInvalid
  | invalidCursor
  | handleBlockData
  | bufferAdd
  | handleUndo
  | bufferUndo
  | completionHandler
  | newClient
deriving DecidableEq

/-- The Go error values that flow through the sinker.  `wrapErr` is a
single-`%w` `fmt.Errorf`; `retryableErr` is `derr.NewRetryableError`;
`backOffExpiredErr` is `fmt.Errorf("%w: %w", ErrBackOffExpired, cause)`. -/
inductive GoError
  | fromRecv (e : RecvError)
  | plainErr (tag : Nat)
  | cursorParse
  | undoOutOfWindow
  | wrapErr (tag : WrapTag) (inner : GoError)
  | retryableErr (inner : GoError)
  | backOffExpiredErr (cause : GoError)
deriving DecidableEq

/-- `errors.Is(err, io.EOF)`: walks the unwrap chain looking for `io.EOF`. -/
def GoError.isEOF : GoError → Bool
  | .fromRecv .eof => true
  | .wrapErr _ e => e.isEOF
  | .retryableErr e => e.isEOF
  | _ => false

/-- `errors.As(err, &retryableError)` followed by `retryableError.Unwrap()`:
finds the outermost `derr.RetryableError` in the unwrap chain and yields
the error it wraps. -/
def GoError.asRetryable : GoError → Option GoError
  | .retryableErr e => some e
  | .wrapErr _ e => e.asRetryable
  | _ => none

/-- `retryable` (sinker.go:560): wrap an error as retryable. -/
def retryable (e : GoError) : GoError := .retryableErr e

/-! ## Server message data model (pbsubstreamsrpc) -/

structure BlockRef where
  id : Nat
  number : Nat
deriving DecidableEq

structure Clock where
  id : Nat
  number : Nat
  timestamp : Nat
deriving DecidableEq

structure BlockScopedData where
  clock : Clock
  cursor : Nat
  finalBlockHeight : Nat
deriving DecidableEq

structure BlockUndoSignal where
  lastValidBlock : BlockRef
  lastValidCursor : Nat
deriving DecidableEq

structure CompletedRange where
  startBlock : Nat
  endBlock : Nat
deriving DecidableEq

structure StageProgress where
  modules : List Nat
  completedRanges : List CompletedRange
deriving DecidableEq

structure RunningJob where
  stage : Nat
  startBlock : Nat
  processedBlocks : Nat
deriving DecidableEq

structure ProgressMsg where
  stages : List StageProgress
  runningJobs : List RunningJob
deriving DecidableEq

structure SessionMsg where
  maxParallelWorkers : Nat
  linearHandoffBlock : Nat
  resolvedStartBlock : Nat
  traceId : Nat
deriving DecidableEq

/-- The variants of `pbsubstreamsrpc.Response.Message` dispatched in
`doRequest`. -/
inductive Response
  | progress (msg : ProgressMsg)
  | blockScopedData (data : BlockScopedData)
  | blockUndoSignal (undo : BlockUndoSignal)
  | debugSnapshotData
  | debugSnapshotComplete
  | sessionInit (msg : SessionMsg)
  | unknownMsg
deriving DecidableEq

/-- One outcome of `stream.Recv()`: a message or an error. -/
inductive RecvEvent
  | msg (r : Response)
  | recvErr (e : RecvError)
deriving DecidableEq

/-! ## Metrics state -/

/-- Per-stage gauges are association lists from stage index to value; a
`SetUint64` prepends, and lookup takes the most recent write. -/
def setGauge (gauge : List (Nat × Nat)) (stage val : Nat) : List (Nat × Nat) :=
  (stage, val) :: gauge

def lookupGauge (gauge : List (Nat × Nat)) (stage : Nat) : Option Nat :=
  match gauge.find? (fun p => p.fst == stage) with
  | some p => some p.snd
  | none => none

/-- The Prometheus metrics written by the message-dispatch code.  Gauges
keyed by stage are association lists; scalar metrics are plain values. -/
structure Metrics where
  lastContiguousBlock : List (Nat × Nat) := []
  lastBlock : List (Nat × Nat) := []
  runningJobsGauge : List (Nat × Nat) := []
  totalProcessedBlocks : Nat := 0
  progressMsgCount : Nat := 0
  dataMsgCount : Nat := 0
  undoMsgCount : Nat := 0
  unknownMsgCount : Nat := 0
  errorCount : Nat := 0
  headBlockNumber : Nat := 0
  backprocessingCompletion : Nat := 0
deriving DecidableEq

/-! ## Progress-message handling (sinker.go:398-445) -/

/-- Association map get (Go map read). -/
def assocGet (m : List (Nat × Nat)) (k : Nat) : Option Nat :=
  match m.find? (fun p => p.fst == k) with
  | some p => some p.snd
  | none => none

/-- Association map set keeping keys unique (Go map write). -/
def assocSet (m : List (Nat × Nat)) (k v : Nat) : List (Nat × Nat) :=
  match m with
  | [] => [(k, v)]
  | p :: rest => if p.fst == k then (k, v) :: rest else p :: assocSet rest k v

/-- The `msg.RunningJobs` loop (sinker.go:406-413): accumulates
`totalProcessedBlocks`, the per-stage maximum job end block, and the
per-stage job count. -/
def collectJobs :
    List RunningJob → Nat → List (Nat × Nat) → List (Nat × Nat) →
    Nat × List (Nat × Nat) × List (Nat × Nat)
  | [], total, latest, perStage => (total, latest, perStage)
  | j :: rest, total, latest, perStage =>
    let total := uadd total j.processedBlocks
    let jobEnd := uadd j.startBlock j.processedBlocks
    let latest :=
      match assocGet latest j.stage with
      | none => assocSet latest j.stage jobEnd
      | some prev => if prev < jobEnd then assocSet latest j.stage jobEnd else latest
    let perStage :=
      match assocGet perStage j.stage with
      | none => assocSet perStage j.stage 1
      | some c => assocSet perStage j.stage (uadd c 1)
    collectJobs rest total latest perStage

/-- The inner `stage.CompletedRanges` loop (sinker.go:424-435) for one
stage: `prodLast` is `s.mode == SubstreamsModeProduction && i ==
len(msg.Stages)-1`, `rasb` is `s.requestActiveStartBlock`, `j` the range
index.  Returns the updated `last_contiguous_block` gauge and the updated
`totalProcessedBlocks` accumulator. -/
def processRanges (prodLast : Bool) (rasb stageIdx : Nat) :
    List CompletedRange → Nat → List (Nat × Nat) → Nat →
    List (Nat × Nat) × Nat
  | [], _, gauge, total => (gauge, total)
  | r :: rest, j, gauge, total =>
    let gauge :=
      if prodLast then
        if rasb ≤ r.startBlock ∧ r.endBlock ≥ rasb then
          setGauge gauge stageIdx r.endBlock
        else gauge
      else
        if j = 0 then setGauge gauge stageIdx r.endBlock else gauge
    processRanges prodLast rasb stageIdx rest (j + 1) gauge
      (uadd total (usub r.endBlock r.startBlock))

/-- The outer `msg.Stages` loop (sinker.go:422-436): `i` is the current
stage index, `numStages` is `len(msg.Stages)`.  (The `stagesModules` map
built by the source is written and never read; it is omitted.) -/
def processStages (prod : Bool) (rasb numStages : Nat) :
    List StageProgress → Nat → List (Nat × Nat) → Nat →
    List (Nat × Nat) × Nat
  | [], _, gauge, total => (gauge, total)
  | st :: rest, i, gauge, total =>
    let prodLast := prod && decide (i = numStages - 1)
    let (gauge, total) := processRanges prodLast rasb i st.completedRanges 0 gauge total
    processStages prod rasb numStages rest (i + 1) gauge total

inductive SubstreamsMode
  | development
  | production
deriving DecidableEq

/-- The whole `Response_Progress` case of `doRequest` (sinker.go:398-445):
running-job gauges, the mode-dependent `last_contiguous_block` update, the
progress-message counter and the cumulative `totalProcessedBlocks` gauge. -/
def handleProgress (mode : SubstreamsMode) (rasb : Nat) (msg : ProgressMsg)
    (m : Metrics) : Metrics :=
  let (total, latest, perStage) := collectJobs msg.runningJobs 0 [] []
  let lastBlockGauge := latest.foldl (fun g p => setGauge g p.fst p.snd) m.lastBlock
  let jobsGauge := perStage.foldl (fun g p => setGauge g p.fst p.snd) m.runningJobsGauge
  let prod := decide (mode = SubstreamsMode.production)
  let (lcb, total) :=
    processStages prod rasb msg.stages.length msg.stages 0 m.lastContiguousBlock total
  { m with
    lastBlock := lastBlockGauge
    runningJobsGauge := jobsGauge
    lastContiguousBlock := lcb
    progressMsgCount := m.progressMsgCount + 1
    totalProcessedBlocks := total }

/-! ## Sinker configuration, constructor and options (sinker.go:40-117) -/

structure Module where
  name : Nat
  outputType : Nat
deriving DecidableEq

structure Package where
  modules : List Module
  sinkModule : Nat
deriving DecidableEq

structure ClientConfig where
  endpoint : Nat
  insecure : Bool
  plainText : Bool
  authToken : Nat
deriving DecidableEq

/-- A `bstream.Range`: half-open `[start, end)`, `endBlock = none` means
unbounded. -/
structure BlockRange where
  startBlock : Nat
  endBlock : Option Nat
deriving DecidableEq

/-- The `Sinker` struct (sinker.go:40-64).  The undo buffer is represented
by its capacity here (`buffer = none` is a nil `*blockDataBuffer`); the
buffered blocks themselves are per-run mutable state and live in
`SinkState`.  The backoff object created by `New` carries no configuration
beyond `infiniteRetry` in this model (its durations are not observed), so
no field is needed for it.  Logger, tracer and stats are effect-free
collaborators and are omitted. -/
structure Sinker where
  mode : SubstreamsMode
  pkg : Package
  outputModule : Module
  outputModuleHash : List Nat
  clientConfig : ClientConfig
  buffer : Option Nat
  blockRange : Option BlockRange
  infiniteRetry : Bool
  finalBlocksOnly : Bool
  livenessChecker : Option (Clock → Bool)
  extraHeaders : List (Nat × Nat)

/-- `hex.EncodeToString` specialised to our token alphabet: each byte
becomes its two hex nibbles. -/
def hexEncode (bytes : List Nat) : List Nat :=
  bytes.foldr (fun b acc => b / 16 % 16 :: b % 16 :: acc) []

/-- A functional option (`Option` in the source, `func(*Sinker)`). -/
def SinkOption : Type := Sinker → Sinker

/-- The constructor `New` (sinker.go:66-117): builds the sinker, applies
the options in order, then discards the undo buffer when final blocks
only was requested, and returns `s, nil` — there is no error path. -/
def New (mode : SubstreamsMode) (pkg : Package) (outputModule : Module)
    (hash : List Nat) (clientConfig : ClientConfig) (opts : List SinkOption) :
    Sinker × Option GoError :=
  let s : Sinker :=
    { mode := mode
      pkg := pkg
      outputModule := outputModule
      outputModuleHash := hexEncode hash
      clientConfig := clientConfig
      buffer := none
      blockRange := none
      infiniteRetry := false
      finalBlocksOnly := false
      livenessChecker := none
      extraHeaders := [] }
  let s := opts.foldl (fun s opt => opt s) s
  let s :=
    if s.finalBlocksOnly ∧ s.buffer ≠ none then { s with buffer := none } else s
  (s, none)

/-- Modelled from the spec (§6): `WithBlockRange` — option code not under
src/. -/
def WithBlockRange (r : BlockRange) : SinkOption :=
  fun s => { s with blockRange := some r }

/-- Modelled from the spec (§6): `WithBlockDataBuffer(N)`, `N == 0`
disables buffering — option code not under src/. -/
def WithBlockDataBuffer (capacity : Nat) : SinkOption :=
  fun s =>
    if capacity = 0 then { s with buffer := none }
    else { s with buffer := some capacity }

/-- Modelled from the spec (§6): `WithFinalBlocksOnly` — option code not
under src/. -/
def WithFinalBlocksOnly : SinkOption :=
  fun s => { s with finalBlocksOnly := true }

/-- Modelled from the spec (§6): `WithInfiniteRetry` — option code not
under src/. -/
def WithInfiniteRetry : SinkOption :=
  fun s => { s with infiniteRetry := true }

/-- Modelled from the spec (§6): `WithLivenessChecker` — option code not
under src/. -/
def WithLivenessChecker (lc : Clock → Bool) : SinkOption :=
  fun s => { s with livenessChecker := some lc }

/-! ## Cursor (spec §4.A; component not under src/) -/

structure Cursor where
  token : Nat
deriving DecidableEq

/-- Modelled from the spec (§4.A): `NewCursor` parses an opaque cursor
token; the Cursor component is not under src/.  Which tokens decode is
abstracted by the predicate `dec` supplied to the session. -/
def NewCursor (dec : Nat → Bool) (token : Nat) : Option Cursor :=
  if dec token then some ⟨token⟩ else none

/-! ## Handler and request (sinker.go:269-281, SinkerHandler) -/

/-- The user handler: `SinkerHandler` plus the optional
`SinkerCompletionHandler` capability (`handleBlockRangeCompletion = none`
models a handler that does not implement it). -/
structure SinkerHandler where
  handleBlockScopedData : BlockScopedData → Option Bool → Cursor → Option GoError
  handleBlockUndoSignal : BlockUndoSignal → Cursor → Option GoError
  handleBlockRangeCompletion : Option (Cursor → Option GoError)

/-- A handler invocation observed during a run. -/
inductive HandlerEvent
  | blockData (data : BlockScopedData) (isLive : Option Bool) (cursor : Cursor)
  | undoSignal (undo : BlockUndoSignal) (cursor : Cursor)
  | rangeCompletion (cursor : Cursor)
deriving DecidableEq

/-- `adjustedEndBlock` (sinker.go:336-348): `0` when the range is absent
or unbounded; otherwise the configured end, pushed back by the buffer
capacity when an undo buffer is in use. -/
def adjustedEndBlock (s : Sinker) : Nat :=
  match s.blockRange with
  | none => 0
  | some r =>
    match r.endBlock with
    | none => 0
    | some endBlock =>
      match s.buffer with
      | none => endBlock
      | some capacity => uadd endBlock capacity

structure Request where
  startBlockNum : Int
  stopBlockNum : Nat
  startCursor : Nat
  finalBlocksOnly : Bool
  outputModule : Nat
  productionMode : Bool
deriving DecidableEq

/-- The request built at the top of the `run` loop (sinker.go:269-281):
`startBlock := s.BlockRange().StartBlock()` (0 for an absent range),
`stopBlock := s.adjustedEndBlock()`. -/
def buildRequest (s : Sinker) (cursor : Cursor) : Request :=
  { startBlockNum := toInt64 ((s.blockRange.map (fun r => r.startBlock)).getD 0)
    stopBlockNum := adjustedEndBlock s
    startCursor := cursor.token
    finalBlocksOnly := s.finalBlocksOnly
    outputModule := s.outputModule.name
    productionMode := decide (s.mode = SubstreamsMode.production) }

/-! ## Undo buffer (spec §4.C; component not under src/) -/

/-- Modelled from the spec (§4.C): `blockDataBuffer.HandleBlockScopedData`
— the buffer component is not under src/.  Appends the block; once the
buffer holds more than its capacity, the oldest blocks are released in
order.  Returns `(released, remaining)`. -/
def bufferHandleBlockScopedData (capacity : Nat) (blocks : List BlockScopedData)
    (d : BlockScopedData) : List BlockScopedData × List BlockScopedData :=
  let blocks := blocks ++ [d]
  if capacity < blocks.length then
    (blocks.take (blocks.length - capacity), blocks.drop (blocks.length - capacity))
  else ([], blocks)

/-- Modelled from the spec (§4.C): `blockDataBuffer.HandleBlockUndoSignal`
— the buffer component is not under src/.  Keeps the buffered blocks at or
below the last valid height (buffered blocks are ordered by ascending
number); fails with `UndoOutOfWindow` when that would drain the buffer. -/
def bufferHandleUndo (blocks : List BlockScopedData) (lastValid : Nat) :
    Option (List BlockScopedData) :=
  let kept := blocks.takeWhile (fun d => decide (d.clock.number ≤ lastValid))
  if kept.isEmpty then none else some kept

/-! ## The stream session: `doRequest` (sinker.go:350-554)

A session is driven by the list of `stream.Recv()` outcomes.  The session
is modelled from the point where the stream is open (`ssClient.Blocks`
succeeded); `receivedMessage` starts false and becomes true on the first
successfully received message. -/

/-- `classifyRecvError` is the receive-error classification of
`doRequest` (sinker.go:375-393): `io.EOF` is returned as-is, gRPC
`Unauthenticated` and `InvalidArgument` are returned wrapped but
non-retryable, and every other receive error is wrapped as a
`derr.RetryableError`. -/
def classifyRecvError (e : RecvError) : GoError :=
  match e with
  | .eof => .fromRecv .eof
  | _ =>
    match asGRPCError e with
    | some GrpcCode.unauthenticated => .wrapErr .streamFailure (.fromRecv e)
    | some GrpcCode.invalidArgument => .wrapErr .streamInvalid (.fromRecv e)
    | _ => retryable (.fromRecv e)

/-- The sinker-owned state mutated by message dispatch and shared across
the sessions of one run: `s.requestActiveStartBlock`, the process-global
metrics, and the contents of the undo buffer. -/
structure SinkState where
  requestActiveStartBlock : Nat
  metrics : Metrics
  bufferBlocks : List BlockScopedData
deriving DecidableEq

/-- The value of `doRequest` (sinker.go:357-361): final active cursor, the
received-message flag, the returned error (`none` only when the event
script is exhausted with the session still receiving), the final state,
and the handler invocations made during the session. -/
structure SessionResult where
  cursor : Cursor
  receivedMessage : Bool
  err : Option GoError
  st : SinkState
  trace : List HandlerEvent
deriving DecidableEq

/-- The delivery loop over `dataToProcess` (sinker.go:481-498): for each
released block, parse its cursor, compute `isLive` when a liveness checker
is configured, and invoke `handler.HandleBlockScopedData`; a parse or
handler error aborts the session. -/
def deliverBlocks (cfg : Sinker) (handler : SinkerHandler) (dec : Nat → Bool) :
    List BlockScopedData → List HandlerEvent × Option GoError
  | [] => ([], none)
  | d :: rest =>
    match NewCursor dec d.cursor with
    | none => ([], some (.wrapErr .invalidCursor .cursorParse))
    | some currentCursor =>
      let isLive : Option Bool :=
        match cfg.livenessChecker with
        | none => none
        | some lc => some (lc d.clock)
      match handler.handleBlockScopedData d isLive currentCursor with
      | some e =>
        ([HandlerEvent.blockData d isLive currentCursor],
          some (.wrapErr .handleBlockData e))
      | none =>
        let (tr, res) := deliverBlocks cfg handler dec rest
        (HandlerEvent.blockData d isLive currentCursor :: tr, res)

/-- Effect of handling one successfully received message: possibly updated
cursor and state, the handler invocations made, and — when the switch arm
`return`s — the error that aborts the session (`none` continues the
receive loop). -/
structure DispatchResult where
  cursor : Cursor
  st : SinkState
  trace : List HandlerEvent
  err : Option GoError
deriving DecidableEq

/-- The `switch r := resp.Message.(type)` of `doRequest`
(sinker.go:398-552), for one message. -/
def dispatch (cfg : Sinker) (handler : SinkerHandler) (dec : Nat → Bool)
    (cursor : Cursor) (st : SinkState) : Response → DispatchResult
  | .progress msg =>
    ⟨cursor,
      { st with
        metrics := handleProgress cfg.mode st.requestActiveStartBlock msg st.metrics },
      [], none⟩
  | .blockScopedData d =>
    let st :=
      { st with
        metrics :=
          { st.metrics with
            headBlockNumber := d.clock.number
            dataMsgCount := st.metrics.dataMsgCount + 1
            backprocessingCompletion := 1 } }
    match NewCursor dec d.cursor with
    | none => ⟨cursor, st, [], some (.wrapErr .invalidCursor .cursorParse)⟩
    | some c =>
      match cfg.buffer with
      | none =>
        let (tr, res) := deliverBlocks cfg handler dec [d]
        ⟨c, st, tr, res⟩
      | some capacity =>
        let (released, remaining) :=
          bufferHandleBlockScopedData capacity st.bufferBlocks d
        let st := { st with bufferBlocks := remaining }
        let (tr, res) := deliverBlocks cfg handler dec released
        ⟨c, st, tr, res⟩
  | .blockUndoSignal u =>
    let st :=
      { st with
        metrics :=
          { st.metrics with
            undoMsgCount := st.metrics.undoMsgCount + 1
            headBlockNumber := u.lastValidBlock.number } }
    match NewCursor dec u.lastValidCursor with
    | none => ⟨cursor, st, [], some (.wrapErr .invalidCursor .cursorParse)⟩
    | some c =>
      match cfg.buffer with
      | none =>
        match handler.handleBlockUndoSignal u c with
        | some e =>
          ⟨c, st, [HandlerEvent.undoSignal u c], some (.wrapErr .handleUndo e)⟩
        | none => ⟨c, st, [HandlerEvent.undoSignal u c], none⟩
      | some _ =>
        match bufferHandleUndo st.bufferBlocks u.lastValidBlock.number with
        | none => ⟨c, st, [], some (.wrapErr .bufferUndo .undoOutOfWindow)⟩
        | some blocks => ⟨c, { st with bufferBlocks := blocks }, [], none⟩
  | .debugSnapshotData => ⟨cursor, st, [], none⟩
  | .debugSnapshotComplete => ⟨cursor, st, [], none⟩
  | .sessionInit m =>
    ⟨cursor, { st with requestActiveStartBlock := m.resolvedStartBlock }, [], none⟩
  | .unknownMsg =>
    ⟨cursor,
      { st with
        metrics := { st.metrics with unknownMsgCount := st.metrics.unknownMsgCount + 1 } },
      [], none⟩

/-- `doRequest` (sinker.go:350-554) from the point where the stream is
open: the receive loop.  A receive error is classified and returned; a
received message sets `receivedMessage`, is dispatched, and either aborts
the session with the dispatch error or continues the loop. -/
def doRequest (cfg : Sinker) (handler : SinkerHandler) (dec : Nat → Bool) :
    Cursor → Bool → SinkState → List RecvEvent → SessionResult
  | cursor, received, st, [] => ⟨cursor, received, none, st, []⟩
  | cursor, received, st, .recvErr e :: _ =>
    ⟨cursor, received, some (classifyRecvError e), st, []⟩
  | cursor, _, st, .msg r :: rest =>
    let d := dispatch cfg handler dec cursor st r
    match d.err with
    | some e => ⟨d.cursor, true, some e, d.st, d.trace⟩
    | none =>
      let res := doRequest cfg handler dec d.cursor true d.st rest
      { res with trace := d.trace ++ res.trace }

/-! ## The retry loop: `run` (sinker.go:227-332) -/

/-- The state of `backoff.WithMaxRetries(backOff, 15)`: the consecutive
`NextBackOff` call counter.  The underlying exponential backoff has
`MaxElapsedTime = 0` and never stops by itself. -/
structure BackOffState where
  tries : Nat
deriving DecidableEq

/-- `backOff.NextBackOff()` outcome: `none` is `backoff.Stop`.  When
`infiniteRetry` the 15-retry cap is not installed and the policy never
stops. -/
def backOffNext (infiniteRetry : Bool) (b : BackOffState) : Option BackOffState :=
  if infiniteRetry then some b
  else if 15 ≤ b.tries then none
  else some ⟨b.tries + 1⟩

/-- One `doRequest` call of the run loop, as scripted from outside: the
`Recv` outcomes the server produces for it, and the value `ctx.Err() ==
context.Canceled` has when `run` examines this session's error
(sinker.go:307). -/
structure SessionScript where
  events : List RecvEvent
  ctxCanceled : Bool

/-- The value of `run` (sinker.go:227): final cursor, the error returned
(`none` is a nil error), whether the loop actually returned (`halted =
false` models a run still looping/blocked when the script is exhausted),
final sinker state, final backoff state, and the handler trace. -/
structure RunResult where
  cursor : Cursor
  err : Option GoError
  halted : Bool
  st : SinkState
  bo : BackOffState
  trace : List HandlerEvent
deriving DecidableEq

/-- The `for` loop of `run` (sinker.go:272-331): call `doRequest`, reset
the backoff if any message was received, then dispatch on the error:
`io.EOF` and a canceled context end the run with a nil error; a retryable
error consults the backoff (`backoff.Stop` surfaces `ErrBackOffExpired`
wrapping the retryable cause); any other error is returned as-is. -/
def runLoop (cfg : Sinker) (handler : SinkerHandler) (dec : Nat → Bool) :
    Cursor → SinkState → BackOffState → List SessionScript → RunResult
  | cursor, st, bo, [] => ⟨cursor, none, false, st, bo, []⟩
  | cursor, st, bo, sess :: rest =>
    let r := doRequest cfg handler dec cursor false st sess.events
    let bo := if r.receivedMessage then ⟨0⟩ else bo
    match r.err with
    | none => ⟨r.cursor, none, false, r.st, bo, r.trace⟩
    | some e =>
      if e.isEOF then ⟨r.cursor, none, true, r.st, bo, r.trace⟩
      else if sess.ctxCanceled then ⟨r.cursor, none, true, r.st, bo, r.trace⟩
      else
        let st2 :=
          { r.st with
            metrics := { r.st.metrics with errorCount := r.st.metrics.errorCount + 1 } }
        match e.asRetryable with
        | some cause =>
          match backOffNext cfg.infiniteRetry bo with
          | none => ⟨r.cursor, some (.backOffExpiredErr cause), true, st2, bo, r.trace⟩
          | some bo2 =>
            let res := runLoop cfg handler dec r.cursor st2 bo2 rest
            { res with trace := r.trace ++ res.trace }
        | none => ⟨r.cursor, some e, true, st2, bo, r.trace⟩

/-- The value of `Run` (sinker.go:180-225): the error passed to
`s.Shutdown`, whether the call returned, the last cursor, and the full
handler trace (completion callback included). -/
structure TopResult where
  shutdownErr : Option GoError
  halted : Bool
  lastCursor : Cursor
  trace : List HandlerEvent
  st : SinkState
deriving DecidableEq

/-- Lines 219-222 of `Run`: the error handed to `Shutdown` is dropped when
the caller's context was canceled. -/
def finishShutdown (ctxCanceledAtEnd : Bool) (e : Option GoError) : Option GoError :=
  if ctxCanceledAtEnd then none else e

/-- `Run` (sinker.go:180-225): run the retry loop; on a nil error invoke
`HandleBlockRangeCompletion` when the handler implements it (a completion
error shuts the sinker down with that error, bypassing the cancellation
check); finally shut down, dropping the error if the context was
canceled. -/
def Run (cfg : Sinker) (handler : SinkerHandler) (dec : Nat → Bool)
    (cursor : Cursor) (st : SinkState) (script : List SessionScript)
    (ctxCanceledAtEnd : Bool) : TopResult :=
  let r := runLoop cfg handler dec cursor st ⟨0⟩ script
  if r.halted = false then ⟨none, false, r.cursor, r.trace, r.st⟩
  else
    match r.err with
    | none =>
      match handler.handleBlockRangeCompletion with
      | some complete =>
        match complete r.cursor with
        | some e =>
          ⟨some (.wrapErr .completionHandler e), true, r.cursor,
            r.trace ++ [HandlerEvent.rangeCompletion r.cursor], r.st⟩
        | none =>
          ⟨finishShutdown ctxCanceledAtEnd none, true, r.cursor,
            r.trace ++ [HandlerEvent.rangeCompletion r.cursor], r.st⟩
      | none => ⟨finishShutdown ctxCanceledAtEnd none, true, r.cursor, r.trace, r.st⟩
    | some e => ⟨finishShutdown ctxCanceledAtEnd (some e), true, r.cursor, r.trace, r.st⟩

/-! ## Trace observations and spec-side characterizations -/

/-- The cursors passed to `HandleBlockRangeCompletion`, in order. -/
def completionCursors (t : List HandlerEvent) : List Cursor :=
  t.filterMap fun e =>
    match e with
    | .rangeCompletion c => some c
    | _ => none

/-- The arguments passed to `HandleBlockUndoSignal`, in order. -/
def undoCalls (t : List HandlerEvent) : List (BlockUndoSignal × Cursor) :=
  t.filterMap fun e =>
    match e with
    | .undoSignal u c => some (u, c)
    | _ => none

/-- Whether a receive outcome is a `BlockUndoSignal` message. -/
def isUndoMsg : RecvEvent → Bool
  | .msg (.blockUndoSignal _) => true
  | _ => false

/-- Spec-side characterization for the amended C4: the
`resolved_start_block` of the last `Session` message, defaulting to the
previously recorded value. -/
def lastResolvedStartBlock (ms : List SessionMsg) (dflt : Nat) : Nat :=
  match ms with
  | [] => dflt
  | m :: rest => lastResolvedStartBlock rest m.resolvedStartBlock

/-- A receive error that `doRequest` classifies as retryable: anything
that is not `io.EOF` and carries neither the `Unauthenticated` nor the
`InvalidArgument` gRPC code. -/
def plainRetryable : RecvError → Bool
  | .eof => false
  | .grpcErr .unauthenticated => false
  | .grpcErr .invalidArgument => false
  | _ => true

/-- A run script of single-error sessions: each session's only `Recv`
outcome is the given error, with the context not canceled. -/
def singleErrScript (es : List RecvError) : List SessionScript :=
  es.map fun e => ⟨[.recvErr e], false⟩

/-! ## Shared concrete fixtures for witnesses and counterexamples -/

def exPkg : Package := ⟨[⟨1, 2⟩], 0⟩

def exModule : Module := ⟨1, 2⟩

def exCC : ClientConfig := ⟨0, false, false, 0⟩

/-- A handler without the completion capability that accepts everything. -/
def exHandler : SinkerHandler := ⟨fun _ _ _ => none, fun _ _ => none, none⟩

/-- A handler with a completion callback that succeeds. -/
def exHandlerC : SinkerHandler := ⟨fun _ _ _ => none, fun _ _ => none, some fun _ => none⟩

/-- A handler whose completion callback fails. -/
def exHandlerCE : SinkerHandler :=
  ⟨fun _ _ _ => none, fun _ _ => none, some fun _ => some (.plainErr 3)⟩

/-- A cursor-decode predicate accepting every token. -/
def decAll : Nat → Bool := fun _ => true

/-- A plain sinker: production mode, no options. -/
def exCfg : Sinker := (New .production exPkg exModule [] exCC []).1

def exSt : SinkState := ⟨0, {}, []⟩

/-! ## C10 — the constructor never fails -/

/-- C10: `New` never fails: for every mode, package, output module, hash,
client config and option list it returns the constructed sinker together
with a nil error — there is no code path returning a non-nil error, so
callers cannot observe a construction error. -/
theorem c10_new_never_fails (mode : SubstreamsMode) (pkg : Package)
    (outputModule : Module) (hash : List Nat) (clientConfig : ClientConfig)
    (opts : List SinkOption) :
    (New mode pkg outputModule hash clientConfig opts).2 = none := rfl

/-! ## C7 — requested stop block -/

/-- C7: the request's `stop_block_num` is `0` whenever the configured
block range is absent or unbounded (in particular it is never the
`MaxUint64` sentinel there), and with an undo buffer of capacity `C` and a
finite configured end `E` (no 64-bit overflow) the requested stop block is
`E + C`. -/
theorem c7_stop_block (s : Sinker) (cursor : Cursor) :
    ((s.blockRange = none ∨ ∃ r, s.blockRange = some r ∧ r.endBlock = none) →
      (buildRequest s cursor).stopBlockNum = 0) ∧
    (∀ r endB capacity, s.blockRange = some r → r.endBlock = some endB →
      s.buffer = some capacity → endB + capacity < U64 →
      (buildRequest s cursor).stopBlockNum = endB + capacity) := by
  constructor
  · rintro (h | ⟨r, hr, he⟩)
    · simp [buildRequest, adjustedEndBlock, h]
    · simp [buildRequest, adjustedEndBlock, hr, he]
  · intro r endB capacity hr he hb hlt
    simp [buildRequest, adjustedEndBlock, hr, he, hb, uadd, Nat.mod_eq_of_lt hlt]

/-- C7 witness: a sinker with no range requests stop block 0; a sinker
with range `[100, 103)` and an undo buffer of capacity 2 requests stop
block 105. -/
theorem c7_stop_block_witness :
    (buildRequest exCfg ⟨0⟩).stopBlockNum = 0 ∧
    (buildRequest
        (New .production exPkg exModule [] exCC
          [WithBlockRange ⟨100, some 103⟩, WithBlockDataBuffer 2]).1 ⟨0⟩).stopBlockNum
      = 103 + 2 := by
  constructor
  · exact (c7_stop_block exCfg ⟨0⟩).1 (Or.inl rfl)
  · exact (c7_stop_block _ ⟨0⟩).2 ⟨100, some 103⟩ 103 2 rfl rfl rfl (by norm_num [U64])

/-! ## C5 — receive-error classification -/

/-- C5: a receive error carrying gRPC `Unauthenticated` or
`InvalidArgument` is returned wrapped but without the retryable marker
(so the run loop surfaces it as-is instead of retrying), while every
other non-EOF receive error is returned wrapped as a
`derr.RetryableError`; and `doRequest` returns exactly this
classification for a receive error. -/
theorem c5_error_classification (e : RecvError) (hne : e ≠ .eof) :
    (asGRPCError e = some .unauthenticated →
      classifyRecvError e = .wrapErr .streamFailure (.fromRecv e) ∧
        (classifyRecvError e).asRetryable = none) ∧
    (asGRPCError e = some .invalidArgument →
      classifyRecvError e = .wrapErr .streamInvalid (.fromRecv e) ∧
        (classifyRecvError e).asRetryable = none) ∧
    (asGRPCError e ≠ some .unauthenticated → asGRPCError e ≠ some .invalidArgument →
      classifyRecvError e = retryable (.fromRecv e)) ∧
    (∀ cfg handler dec cursor received st rest,
      (doRequest cfg handler dec cursor received st (.recvErr e :: rest)).err
        = some (classifyRecvError e)) := by
  refine ⟨?_, ?_, ?_, fun _ _ _ _ _ _ _ => rfl⟩
  · intro h
    cases e with
    | eof => exact absurd rfl hne
    | grpcErr c => cases c <;> simp_all [asGRPCError, classifyRecvError, GoError.asRetryable]
    | otherErr t => simp [asGRPCError] at h
  · intro h
    cases e with
    | eof => exact absurd rfl hne
    | grpcErr c => cases c <;> simp_all [asGRPCError, classifyRecvError, GoError.asRetryable]
    | otherErr t => simp [asGRPCError] at h
  · intro h1 h2
    cases e with
    | eof => exact absurd rfl hne
    | grpcErr c => cases c <;> simp_all [asGRPCError, classifyRecvError, retryable]
    | otherErr t => simp [asGRPCError, classifyRecvError, retryable]

/-- C5 witness: an `Unauthenticated` receive error is classified without
the retryable marker, and a plain transport error is classified
retryable. -/
theorem c5_error_classification_witness :
    (classifyRecvError (.grpcErr .unauthenticated)).asRetryable = none ∧
    classifyRecvError (.otherErr 0) = retryable (.fromRecv (.otherErr 0)) := by
  constructor
  · exact ((c5_error_classification (.grpcErr .unauthenticated) (by decide)).1 rfl).2
  · exact (c5_error_classification (.otherErr 0) (by decide)).2.2.1 (by decide) (by decide)

/-! ## C1 — production-mode last-contiguous-block gauge (code bug) -/

/-- C1: the code contradicts the claimed (and commented) selection rule.
With `requestActiveStartBlock = 100` in production mode and a single
(last) stage: the completed range `[50, 150]` contains 100, yet the gauge
is left unset because the code tests `requestActiveStartBlock ≤ r.start`
instead of `r.start ≤ requestActiveStartBlock`; and the completed range
`[120, 130]`, which does not contain 100, does set the gauge to 130. -/
theorem c1_last_contiguous_eval :
    lookupGauge
        (handleProgress .production 100 ⟨[⟨[], [⟨50, 150⟩]⟩], []⟩ {}).lastContiguousBlock 0
      = none ∧
    lookupGauge
        (handleProgress .production 100 ⟨[⟨[], [⟨120, 130⟩]⟩], []⟩ {}).lastContiguousBlock 0
      = some 130 ∧
    ((50 : Nat) ≤ 100 ∧ (100 : Nat) ≤ 150) ∧ ¬((120 : Nat) ≤ 100 ∧ (100 : Nat) ≤ 130) := by
  refine ⟨?_, ?_, by norm_num, by norm_num⟩ <;> decide

/-! ## Trace helper lemmas -/

lemma undoCalls_append (a b : List HandlerEvent) :
    undoCalls (a ++ b) = undoCalls a ++ undoCalls b := by
  simp [undoCalls, List.filterMap_append]

lemma completionCursors_append (a b : List HandlerEvent) :
    completionCursors (a ++ b) = completionCursors a ++ completionCursors b := by
  simp [completionCursors, List.filterMap_append]

/-- The data-delivery loop only ever invokes `HandleBlockScopedData`. -/
lemma deliverBlocks_trace_blockData (cfg : Sinker) (handler : SinkerHandler)
    (dec : Nat → Bool) :
    ∀ ds : List BlockScopedData,
      undoCalls (deliverBlocks cfg handler dec ds).1 = [] ∧
      completionCursors (deliverBlocks cfg handler dec ds).1 = [] := by
  intro ds
  induction ds with
  | nil => simp [deliverBlocks, undoCalls, completionCursors]
  | cons d rest ih =>
    simp only [deliverBlocks]
    split
    · simp [undoCalls, completionCursors]
    · split
      · simp [undoCalls, completionCursors]
      · simpa [undoCalls, completionCursors] using ih

/-- `dispatch` never invokes the completion callback. -/
lemma dispatch_trace_no_completion (cfg : Sinker) (handler : SinkerHandler)
    (dec : Nat → Bool) (cursor : Cursor) (st : SinkState) (r : Response) :
    completionCursors (dispatch cfg handler dec cursor st r).trace = [] := by
  cases r <;> simp only [dispatch]
  case progress m => simp [completionCursors]
  case blockScopedData d =>
    split
    · simp [completionCursors]
    · split
      · exact (deliverBlocks_trace_blockData cfg handler dec _).2
      · exact (deliverBlocks_trace_blockData cfg handler dec _).2
  case blockUndoSignal u =>
    split
    · simp [completionCursors]
    · split
      · split <;> simp [completionCursors]
      · split <;> simp [completionCursors]
  case debugSnapshotData => simp [completionCursors]
  case debugSnapshotComplete => simp [completionCursors]
  case sessionInit m => simp [completionCursors]
  case unknownMsg => simp [completionCursors]

/-- `dispatch` invokes `HandleBlockUndoSignal` only for a
`BlockUndoSignal` message. -/
lemma dispatch_trace_no_undo (cfg : Sinker) (handler : SinkerHandler)
    (dec : Nat → Bool) (cursor : Cursor) (st : SinkState) (r : Response)
    (h : isUndoMsg (.msg r) = false) :
    undoCalls (dispatch cfg handler dec cursor st r).trace = [] := by
  cases r <;> simp only [dispatch]
  case progress m => simp [undoCalls]
  case blockScopedData d =>
    split
    · simp [undoCalls]
    · split
      · exact (deliverBlocks_trace_blockData cfg handler dec _).1
      · exact (deliverBlocks_trace_blockData cfg handler dec _).1
  case blockUndoSignal u => simp [isUndoMsg] at h
  case debugSnapshotData => simp [undoCalls]
  case debugSnapshotComplete => simp [undoCalls]
  case sessionInit m => simp [undoCalls]
  case unknownMsg => simp [undoCalls]

/-- No handler invocation made inside a session is a completion call. -/
lemma doRequest_trace_no_completion (cfg : Sinker) (handler : SinkerHandler)
    (dec : Nat → Bool) :
    ∀ (events : List RecvEvent) (cursor : Cursor) (received : Bool) (st : SinkState),
      completionCursors (doRequest cfg handler dec cursor received st events).trace = [] := by
  intro events
  induction events with
  | nil => intro cursor received st; simp [doRequest, completionCursors]
  | cons ev rest ih =>
    intro cursor received st
    cases ev with
    | recvErr e => simp [doRequest, completionCursors]
    | msg r =>
      simp only [doRequest]
      split
      · exact dispatch_trace_no_completion cfg handler dec cursor st r
      · simpa [completionCursors_append, dispatch_trace_no_completion] using ih _ _ _

/-- If no `BlockUndoSignal` message is received in a session, the session
makes no `HandleBlockUndoSignal` call. -/
lemma doRequest_trace_no_undo (cfg : Sinker) (handler : SinkerHandler)
    (dec : Nat → Bool) :
    ∀ (events : List RecvEvent), (∀ e ∈ events, isUndoMsg e = false) →
      ∀ (cursor : Cursor) (received : Bool) (st : SinkState),
        undoCalls (doRequest cfg handler dec cursor received st events).trace = [] := by
  intro events
  induction events with
  | nil => intro _ cursor received st; simp [doRequest, undoCalls]
  | cons ev rest ih =>
    intro hclean cursor received st
    have hev := hclean ev (List.mem_cons_self ev rest)
    have hrest := fun e he => hclean e (List.mem_cons_of_mem ev he)
    cases ev with
    | recvErr e => simp [doRequest, undoCalls]
    | msg r =>
      simp only [doRequest]
      split
      · exact dispatch_trace_no_undo cfg handler dec cursor st r hev
      · simpa [undoCalls_append, dispatch_trace_no_undo cfg handler dec cursor st r hev]
          using ih hrest _ _ _

/-- The run loop never invokes the completion callback. -/
lemma runLoop_trace_no_completion (cfg : Sinker) (handler : SinkerHandler)
    (dec : Nat → Bool) :
    ∀ (script : List SessionScript) (cursor : Cursor) (st : SinkState) (bo : BackOffState),
      completionCursors (runLoop cfg handler dec cursor st bo script).trace = [] := by
  intro script
  induction script with
  | nil => intro cursor st bo; simp [runLoop, completionCursors]
  | cons sess rest ih =>
    intro cursor st bo
    simp only [runLoop]
    split
    · exact doRequest_trace_no_completion cfg handler dec sess.events cursor false st
    · split
      · exact doRequest_trace_no_completion cfg handler dec sess.events cursor false st
      · split
        · exact doRequest_trace_no_completion cfg handler dec sess.events cursor false st
        · split
          · split
            · exact doRequest_trace_no_completion cfg handler dec sess.events cursor false st
            · simpa [completionCursors_append, doRequest_trace_no_completion]
                using ih _ _ _
          · exact doRequest_trace_no_completion cfg handler dec sess.events cursor false st

/-- If no session of the run receives a `BlockUndoSignal` message, the run
makes no `HandleBlockUndoSignal` call. -/
lemma runLoop_trace_no_undo (cfg : Sinker) (handler : SinkerHandler)
    (dec : Nat → Bool) :
    ∀ (script : List SessionScript),
      (∀ sess ∈ script, ∀ e ∈ sess.events, isUndoMsg e = false) →
      ∀ (cursor : Cursor) (st : SinkState) (bo : BackOffState),
        undoCalls (runLoop cfg handler dec cursor st bo script).trace = [] := by
  intro script
  induction script with
  | nil => intro _ cursor st bo; simp [runLoop, undoCalls]
  | cons sess rest ih =>
    intro hclean cursor st bo
    have hsess := hclean sess (List.mem_cons_self sess rest)
    have hrest := fun s hs => hclean s (List.mem_cons_of_mem sess hs)
    simp only [runLoop]
    split
    · exact doRequest_trace_no_undo cfg handler dec sess.events hsess cursor false st
    · split
      · exact doRequest_trace_no_undo cfg handler dec sess.events hsess cursor false st
      · split
        · exact doRequest_trace_no_undo cfg handler dec sess.events hsess cursor false st
        · split
          · split
            · exact doRequest_trace_no_undo cfg handler dec sess.events hsess cursor false st
            · simpa [undoCalls_append,
                doRequest_trace_no_undo cfg handler dec sess.events hsess cursor false st]
                using ih hrest _ _ _
          · exact doRequest_trace_no_undo cfg handler dec sess.events hsess cursor false st

/-! ## C4 — Session message handling -/

/-- C4 counterexample: the code records `resolved_start_block` on every
`Session` message, not at most once: after receiving Session messages
with resolved start blocks 5 then 9 the recorded value is 9, whereas
after the first alone it is 5 — the second occurrence is not ignored and
does not leave the recorded value unchanged. -/
theorem c4_counterexample :
    (doRequest exCfg exHandler decAll ⟨7⟩ false exSt
        [.msg (.sessionInit ⟨1, 2, 5, 3⟩),
          .msg (.sessionInit ⟨1, 2, 9, 3⟩)]).st.requestActiveStartBlock = 9 ∧
    (doRequest exCfg exHandler decAll ⟨7⟩ false exSt
        [.msg (.sessionInit ⟨1, 2, 5, 3⟩)]).st.requestActiveStartBlock = 5 := by
  decide

/-- C4 amended: every `Session` message records the server's
`resolved_start_block` into `requestActiveStartBlock` (and is logged);
there is no once-per-RPC guard and no warning, so the last occurrence in
the stream wins. -/
theorem c4_amended (cfg : Sinker) (handler : SinkerHandler) (dec : Nat → Bool)
    (cursor : Cursor) (received : Bool) (st : SinkState) (ms : List SessionMsg) :
    (doRequest cfg handler dec cursor received st
        (ms.map fun m => RecvEvent.msg (.sessionInit m))).st.requestActiveStartBlock
      = lastResolvedStartBlock ms st.requestActiveStartBlock := by
  induction ms generalizing cursor received st with
  | nil => rfl
  | cons m rest ih =>
    simpa [doRequest, dispatch, lastResolvedStartBlock] using ih _ _ _

/-! ## C3 — finalBlocksOnly and undo signals -/

/-- The buffer-discard step at the end of `New` (sinker.go:97-100): if the
resulting sinker has `finalBlocksOnly`, its buffer is nil. -/
lemma newNormalize (t : Sinker)
    (h : (if t.finalBlocksOnly ∧ t.buffer ≠ none then { t with buffer := none }
          else t).finalBlocksOnly = true) :
    (if t.finalBlocksOnly ∧ t.buffer ≠ none then { t with buffer := none }
      else t).buffer = none := by
  by_cases hc : t.finalBlocksOnly = true ∧ t.buffer ≠ none
  · simp only [if_pos hc]
  · simp only [if_neg hc] at h ⊢
    rcases not_and_or.mp hc with hf | hb
    · exact absurd h hf
    · simpa using hb

/-- C3 counterexample: with `finalBlocksOnly` the constructor disables the
undo buffer, so a `BlockUndoSignal` that the server does send is passed
straight to `HandleBlockUndoSignal` — the handler IS invoked, contrary to
the claim's "regardless of the messages the server sends". -/
theorem c3_counterexample :
    (New .production exPkg exModule [] exCC
        [WithBlockDataBuffer 3, WithFinalBlocksOnly]).1.finalBlocksOnly = true ∧
    undoCalls
        (runLoop
          (New .production exPkg exModule [] exCC
            [WithBlockDataBuffer 3, WithFinalBlocksOnly]).1
          exHandler decAll ⟨7⟩ exSt ⟨0⟩
          [⟨[.msg (.blockUndoSignal ⟨⟨1, 10⟩, 42⟩)], false⟩]).trace
      = [(⟨⟨1, 10⟩, 42⟩, ⟨42⟩)] := by
  decide

/-- C3 amended: with `finalBlocksOnly` the constructor disables any
configured undo buffer, and `HandleBlockUndoSignal` is invoked only when
the server actually sends a `BlockUndoSignal` message: for every run
whose sessions contain no such message the handler is never invoked (a
conforming server never sends one once final blocks only is requested). -/
theorem c3_amended (mode : SubstreamsMode) (pkg : Package) (outputModule : Module)
    (hash : List Nat) (clientConfig : ClientConfig) (opts : List SinkOption)
    (handler : SinkerHandler) (dec : Nat → Bool) (cursor : Cursor) (st : SinkState)
    (script : List SessionScript)
    (hfbo : (New mode pkg outputModule hash clientConfig opts).1.finalBlocksOnly = true) :
    (New mode pkg outputModule hash clientConfig opts).1.buffer = none ∧
    ((∀ sess ∈ script, ∀ e ∈ sess.events, isUndoMsg e = false) →
      undoCalls
          (runLoop (New mode pkg outputModule hash clientConfig opts).1
            handler dec cursor st ⟨0⟩ script).trace
        = []) := by
  constructor
  · exact newNormalize _ hfbo
  · intro hclean
    exact runLoop_trace_no_undo _ handler dec script hclean cursor st ⟨0⟩

/-- C3 witness: a sinker built with `WithFinalBlocksOnly` (after a buffer
option) has no buffer, and a run whose only session delivers data then
EOF makes no undo call. -/
theorem c3_amended_witness :
    (New .production exPkg exModule [] exCC
        [WithBlockDataBuffer 3, WithFinalBlocksOnly]).1.buffer = none ∧
    undoCalls
        (runLoop
          (New .production exPkg exModule [] exCC
            [WithBlockDataBuffer 3, WithFinalBlocksOnly]).1
          exHandler decAll ⟨7⟩ exSt ⟨0⟩
          [⟨[.msg (.blockScopedData ⟨⟨1, 100, 0⟩, 11, 0⟩), .recvErr .eof], false⟩]).trace
      = [] := by
  have h := c3_amended .production exPkg exModule [] exCC
    [WithBlockDataBuffer 3, WithFinalBlocksOnly] exHandler decAll ⟨7⟩ exSt
    [⟨[.msg (.blockScopedData ⟨⟨1, 100, 0⟩, 11, 0⟩), .recvErr .eof], false⟩] (by decide)
  exact ⟨h.1, h.2 (by decide)⟩

/-! ## C2 — completion callback semantics -/

/-- C2 counterexample: a run whose single session dies on a receive error
while the context is canceled is swallowed into a nil `run` error, and
`Run` then DOES invoke `HandleBlockRangeCompletion` (once, with the last
cursor) — contrary to the claim that it is never invoked when the run
ends by context cancellation.  The second conjunct shows the session
ended on a retryable receive error, not on a stop-block `io.EOF`. -/
theorem c2_counterexample :
    completionCursors
        (Run exCfg exHandlerC decAll ⟨7⟩ exSt
          [⟨[.recvErr (.grpcErr .unavailable)], true⟩] true).trace = [⟨7⟩] ∧
    (doRequest exCfg exHandlerC decAll ⟨7⟩ false exSt
        [.recvErr (.grpcErr .unavailable)]).err
      = some (retryable (.fromRecv (.grpcErr .unavailable))) := by
  decide

/-- C2 amended: `HandleBlockRangeCompletion` is invoked exactly once, with
the final cursor of `run`, precisely when `run` returns a nil error and
the handler implements the completion capability; `run` returns nil both
on a clean stop-block `io.EOF` and when a receive error is swallowed
because the context was canceled.  It is never invoked when `run`
surfaces an error. -/
theorem c2_amended (cfg : Sinker) (handler : SinkerHandler) (dec : Nat → Bool)
    (cursor : Cursor) (st : SinkState) (script : List SessionScript)
    (ctxCanceledAtEnd : Bool)
    (hhalt : (runLoop cfg handler dec cursor st ⟨0⟩ script).halted = true) :
    completionCursors (Run cfg handler dec cursor st script ctxCanceledAtEnd).trace
      = if (runLoop cfg handler dec cursor st ⟨0⟩ script).err = none ∧
            (handler.handleBlockRangeCompletion).isSome = true
        then [(runLoop cfg handler dec cursor st ⟨0⟩ script).cursor]
        else [] := by
  have hnc := runLoop_trace_no_completion cfg handler dec script cursor st ⟨0⟩
  have hone : ∀ c : Cursor, completionCursors [HandlerEvent.rangeCompletion c] = [c] :=
    fun _ => rfl
  unfold Run
  rcases herr : (runLoop cfg handler dec cursor st ⟨0⟩ script).err with _ | e
  · rcases hcomp : handler.handleBlockRangeCompletion with _ | f
    · simp [hhalt, herr, hcomp, hnc]
    · rcases hfc : f (runLoop cfg handler dec cursor st ⟨0⟩ script).cursor with _ | e2
      · simp [hhalt, herr, hcomp, hfc, completionCursors_append, hnc, hone]
      · simp [hhalt, herr, hcomp, hfc, completionCursors_append, hnc, hone]
  · simp [hhalt, herr, hnc]

/-- C2 witness: a bounded run ending in `io.EOF` with a completion-capable
handler invokes the completion callback exactly once with the last
cursor. -/
theorem c2_amended_witness :
    completionCursors
        (Run exCfg exHandlerC decAll ⟨7⟩ exSt [⟨[.recvErr .eof], false⟩] false).trace
      = if (runLoop exCfg exHandlerC decAll ⟨7⟩ exSt ⟨0⟩ [⟨[.recvErr .eof], false⟩]).err = none ∧
            (exHandlerC.handleBlockRangeCompletion).isSome = true
        then [(runLoop exCfg exHandlerC decAll ⟨7⟩ exSt ⟨0⟩ [⟨[.recvErr .eof], false⟩]).cursor]
        else [] :=
  c2_amended exCfg exHandlerC decAll ⟨7⟩ exSt [⟨[.recvErr .eof], false⟩] false (by decide)

/-! ## C8 — context cancellation -/

/-- C8 counterexample: context canceled, the session's receive error is
swallowed, but the (erroneously triggered) completion callback fails —
and `Run` shuts down with that non-nil error even though the context was
canceled, because the completion-error return bypasses the cancellation
check. -/
theorem c8_counterexample :
    (Run exCfg exHandlerCE decAll ⟨7⟩ exSt
        [⟨[.recvErr (.otherErr 1)], true⟩] true).shutdownErr
      = some (.wrapErr .completionHandler (.plainErr 3)) := by
  decide

/-- C8 amended: a receive error observed while `ctx.Err()` is `Canceled`
is swallowed into a nil `run` error, and `Run` hands `Shutdown` a nil
error whenever the context is canceled at the end — provided the
completion callback, if the handler implements one and it is invoked,
does not itself fail (a failing completion callback is surfaced even
under cancellation). -/
theorem c8_amended (cfg : Sinker) (handler : SinkerHandler) (dec : Nat → Bool)
    (cursor : Cursor) (st : SinkState) :
    (∀ (events : List RecvEvent) (rest : List SessionScript) (bo : BackOffState),
      (runLoop cfg handler dec cursor st bo (⟨events, true⟩ :: rest)).err = none) ∧
    (∀ script : List SessionScript,
      (∀ f, handler.handleBlockRangeCompletion = some f →
        f (runLoop cfg handler dec cursor st ⟨0⟩ script).cursor = none) →
      (Run cfg handler dec cursor st script true).shutdownErr = none) := by
  constructor
  · intro events rest bo
    simp only [runLoop]
    rcases h : (doRequest cfg handler dec cursor false st events).err with _ | e
    · rfl
    · by_cases he : e.isEOF = true
      · simp [he]
      · simp [he]
  · intro script hcomp
    unfold Run
    rcases hh : (runLoop cfg handler dec cursor st ⟨0⟩ script).halted with _ | _
    · simp [hh]
    · rcases herr : (runLoop cfg handler dec cursor st ⟨0⟩ script).err with _ | e
      · rcases hc : handler.handleBlockRangeCompletion with _ | f
        · simp [hh, herr, hc, finishShutdown]
        · have hfc := hcomp f hc
          simp [hh, herr, hc, hfc, finishShutdown]
      · simp [hh, herr, finishShutdown]

/-- C8 witness: a canceled run whose session dies on a transport error
returns a nil `run` error and shuts down with a nil error (completion
callback succeeds). -/
theorem c8_amended_witness :
    (runLoop exCfg exHandlerC decAll ⟨7⟩ exSt ⟨0⟩
        [⟨[.recvErr (.otherErr 1)], true⟩]).err = none ∧
    (Run exCfg exHandlerC decAll ⟨7⟩ exSt
        [⟨[.recvErr (.otherErr 1)], true⟩] true).shutdownErr = none := by
  have h := c8_amended exCfg exHandlerC decAll ⟨7⟩ exSt
  refine ⟨h.1 [.recvErr (.otherErr 1)] [] ⟨0⟩, h.2 [⟨[.recvErr (.otherErr 1)], true⟩] ?_⟩
  intro f hf
  injection hf with hf2
  rw [← hf2]

/-! ## C9 — backoff reset on received messages -/

/-- C9: a session that received at least one message (here a debug
snapshot) resets the retry counter when it ends, even though it ends with
a retryable error — from any counter value `k`, the loop continues with
the counter at 1 (reset to 0, then consumed once), in particular it never
expires; a session that received no message leaves the counter untouched,
so it continues from `k + 1` and, at an exhausted counter, expires. -/
theorem c9_backoff_reset (cfg : Sinker) (handler : SinkerHandler) (dec : Nat → Bool)
    (cursor : Cursor) (st : SinkState) (k : Nat)
    (hinf : cfg.infiniteRetry = false) :
    (runLoop cfg handler dec cursor st ⟨k⟩
        [⟨[.msg .debugSnapshotData, .recvErr (.grpcErr .unavailable)], false⟩]).bo = ⟨1⟩ ∧
    (k < 15 →
      (runLoop cfg handler dec cursor st ⟨k⟩
          [⟨[.recvErr (.grpcErr .unavailable)], false⟩]).bo = ⟨k + 1⟩) ∧
    (15 ≤ k →
      (runLoop cfg handler dec cursor st ⟨k⟩
          [⟨[.recvErr (.grpcErr .unavailable)], false⟩]).err
        = some (.backOffExpiredErr (.fromRecv (.grpcErr .unavailable)))) := by
  refine ⟨?_, fun hk => ?_, fun hk => ?_⟩
  · simp [runLoop, doRequest, dispatch, classifyRecvError, asGRPCError, retryable,
      GoError.isEOF, GoError.asRetryable, backOffNext, hinf]
  · simp [runLoop, doRequest, classifyRecvError, asGRPCError, retryable,
      GoError.isEOF, GoError.asRetryable, backOffNext, hinf, Nat.not_le.mpr hk]
  · simp [runLoop, doRequest, classifyRecvError, asGRPCError, retryable,
      GoError.isEOF, GoError.asRetryable, backOffNext, hinf, hk]

/-- C9 witness: at a counter of 15 a message-bearing session still resets
and continues, while a messageless session expires; at 3, a messageless
session moves the counter to 4. -/
theorem c9_backoff_reset_witness :
    (runLoop exCfg exHandler decAll ⟨7⟩ exSt ⟨15⟩
        [⟨[.msg .debugSnapshotData, .recvErr (.grpcErr .unavailable)], false⟩]).bo = ⟨1⟩ ∧
    (runLoop exCfg exHandler decAll ⟨7⟩ exSt ⟨3⟩
        [⟨[.recvErr (.grpcErr .unavailable)], false⟩]).bo = ⟨4⟩ ∧
    (runLoop exCfg exHandler decAll ⟨7⟩ exSt ⟨15⟩
        [⟨[.recvErr (.grpcErr .unavailable)], false⟩]).err
      = some (.backOffExpiredErr (.fromRecv (.grpcErr .unavailable))) := by
  refine ⟨(c9_backoff_reset exCfg exHandler decAll ⟨7⟩ exSt 15 rfl).1,
    (c9_backoff_reset exCfg exHandler decAll ⟨7⟩ exSt 3 rfl).2.1 (by norm_num),
    (c9_backoff_reset exCfg exHandler decAll ⟨7⟩ exSt 15 rfl).2.2 (by norm_num)⟩

/-! ## C6 — backoff cap and the error it surfaces -/

lemma classify_plainRetryable (e : RecvError) (h : plainRetryable e = true) :
    classifyRecvError e = .retryableErr (.fromRecv e) := by
  cases e with
  | eof => simp [plainRetryable] at h
  | grpcErr c =>
    cases c <;> simp_all [plainRetryable, classifyRecvError, asGRPCError, retryable]
  | otherErr t => simp [classifyRecvError, asGRPCError, retryable]

lemma isEOF_retryable_plain (e : RecvError) (h : plainRetryable e = true) :
    (GoError.retryableErr (.fromRecv e)).isEOF = false := by
  cases e <;> simp_all [plainRetryable, GoError.isEOF]

/-- One step of the run loop on a messageless single-error session with a
retryable error and a non-exhausted counter: the loop sleeps and
continues with the counter consumed once. -/
lemma runLoop_singleErr_cons (cfg : Sinker) (handler : SinkerHandler)
    (dec : Nat → Bool) (hinf : cfg.infiniteRetry = false) (e : RecvError)
    (he : plainRetryable e = true) (cursor : Cursor) (st : SinkState) (k : Nat)
    (rest : List SessionScript) (hk : k < 15) :
    runLoop cfg handler dec cursor st ⟨k⟩ (⟨[.recvErr e], false⟩ :: rest)
      = runLoop cfg handler dec cursor
          { st with
            metrics := { st.metrics with errorCount := st.metrics.errorCount + 1 } }
          ⟨k + 1⟩ rest := by
  simp [runLoop, doRequest, classify_plainRetryable e he, isEOF_retryable_plain e he,
    GoError.asRetryable, backOffNext, hinf, Nat.not_le.mpr hk]

/-- The 16th consecutive messageless retryable failure surfaces
`ErrBackOffExpired` wrapping that failure's cause. -/
lemma runLoop_singleErr_stop (cfg : Sinker) (handler : SinkerHandler)
    (dec : Nat → Bool) (hinf : cfg.infiniteRetry = false) (e : RecvError)
    (he : plainRetryable e = true) (cursor : Cursor) (st : SinkState)
    (rest : List SessionScript) :
    (runLoop cfg handler dec cursor st ⟨15⟩ (⟨[.recvErr e], false⟩ :: rest)).err
      = some (.backOffExpiredErr (.fromRecv e)) := by
  simp [runLoop, doRequest, classify_plainRetryable e he, isEOF_retryable_plain e he,
    GoError.asRetryable, backOffNext, hinf]

lemma runLoop_allRetryable_expire (cfg : Sinker) (handler : SinkerHandler)
    (dec : Nat → Bool) (hinf : cfg.infiniteRetry = false) :
    ∀ (es : List RecvError) (e : RecvError) (cursor : Cursor) (st : SinkState) (k : Nat),
      (∀ x ∈ es, plainRetryable x = true) → es.getLast? = some e →
      k + es.length = 16 →
      (runLoop cfg handler dec cursor st ⟨k⟩ (singleErrScript es)).err
        = some (.backOffExpiredErr (.fromRecv e)) := by
  intro es
  induction es with
  | nil => intro e cursor st k _ hlast _; simp at hlast
  | cons e0 rest ih =>
    intro e cursor st k hall hlast hlen
    cases rest with
    | nil =>
      have hk : k = 15 := by simp at hlen; omega
      subst hk
      have he : e = e0 := by simpa using hlast.symm
      subst he
      exact runLoop_singleErr_stop cfg handler dec hinf e (hall e (by simp)) cursor st []
    | cons e1 rest2 =>
      have hk : k < 15 := by simp [List.length_cons] at hlen; omega
      rw [show singleErrScript (e0 :: e1 :: rest2)
          = ⟨[.recvErr e0], false⟩ :: singleErrScript (e1 :: rest2) from rfl,
        runLoop_singleErr_cons cfg handler dec hinf e0 (hall e0 (by simp)) cursor st k _ hk]
      exact ih e _ _ (k + 1) (fun x hx => hall x (by simp [hx]))
        (by simpa using hlast) (by simp [List.length_cons] at hlen ⊢; omega)

lemma runLoop_allRetryable_pending (cfg : Sinker) (handler : SinkerHandler)
    (dec : Nat → Bool) (hinf : cfg.infiniteRetry = false) :
    ∀ (es : List RecvError) (cursor : Cursor) (st : SinkState) (k : Nat),
      (∀ x ∈ es, plainRetryable x = true) → k + es.length ≤ 15 →
      (runLoop cfg handler dec cursor st ⟨k⟩ (singleErrScript es)).halted = false := by
  intro es
  induction es with
  | nil => intro cursor st k _ _; rfl
  | cons e0 rest ih =>
    intro cursor st k hall hlen
    have hk : k < 15 := by simp [List.length_cons] at hlen; omega
    rw [show singleErrScript (e0 :: rest)
        = ⟨[.recvErr e0], false⟩ :: singleErrScript rest from rfl,
      runLoop_singleErr_cons cfg handler dec hinf e0 (hall e0 (by simp)) cursor st k _ hk]
    exact ih _ _ (k + 1) (fun x hx => hall x (by simp [hx]))
      (by simp [List.length_cons] at hlen ⊢; omega)

/-- C6: with `infiniteRetry` off, 15 consecutive non-productive retryable
failures do not yet end the run, and the 16th attempt's failure ends it
with `ErrBackOffExpired` wrapping the most recent (the 16th, i.e. the
last, not the first) retryable cause. -/
theorem c6_backoff_cap (cfg : Sinker) (handler : SinkerHandler) (dec : Nat → Bool)
    (cursor : Cursor) (st : SinkState) (hinf : cfg.infiniteRetry = false)
    (es : List RecvError) (e : RecvError)
    (hall : ∀ x ∈ es, plainRetryable x = true)
    (hlast : es.getLast? = some e) (hlen : es.length = 16) :
    (runLoop cfg handler dec cursor st ⟨0⟩ (singleErrScript es)).err
        = some (.backOffExpiredErr (.fromRecv e)) ∧
    (runLoop cfg handler dec cursor st ⟨0⟩ (singleErrScript (es.take 15))).halted
        = false := by
  refine ⟨runLoop_allRetryable_expire cfg handler dec hinf es e cursor st 0 hall hlast
      (by omega), ?_⟩
  refine runLoop_allRetryable_pending cfg handler dec hinf (es.take 15) cursor st 0
    (fun x hx => hall x (List.take_subset 15 es hx)) ?_
  simp [List.length_take, hlen]

/-- C6 witness: sixteen distinct transport errors exhaust the capped
backoff and the error wraps the sixteenth cause; the first fifteen alone
leave the run still looping. -/
theorem c6_backoff_cap_witness :
    (runLoop exCfg exHandler decAll ⟨7⟩ exSt ⟨0⟩
        (singleErrScript ((List.range 16).map .otherErr))).err
      = some (.backOffExpiredErr (.fromRecv (.otherErr 15))) ∧
    (runLoop exCfg exHandler decAll ⟨7⟩ exSt ⟨0⟩
        (singleErrScript (((List.range 16).map .otherErr).take 15))).halted = false :=
  c6_backoff_cap exCfg exHandler decAll ⟨7⟩ exSt rfl
    ((List.range 16).map .otherErr) (.otherErr 15) (by decide) (by decide) (by decide)

end Sink
